import Mathlib

/-!
# Subkernel lifecycle and interkernel-message protocol

Shallow embedding of the ARTIQ subkernel management core:

* `Master` models `src/artiq/firmware/runtime/kernel.rs`, module `subkernel`
  (the master-side registry, its state machine and the message path).
* `Satman` models `src/artiq/firmware/satman/kernel.rs`
  (the satellite `Sliceable`, `MessageManager`, `Session` and `Manager`).

Modelling conventions: the code is cooperative and single-threaded on each
peer, so the registry mutex and scheduler are dropped and every entry point is
a pure state transformer.  Transport primitives, the cache, the RPC encoder
and the mailbox dialog with the kernel CPU are external collaborators; their
outcomes enter the model as explicit parameters (oracles).  A Rust panic
(`unwrap` on `None`, out-of-bounds indexing, usize underflow) is modelled as
the `none` case of an `Option` result.  Machine integers that can never
overflow in the modelled paths are represented as `Nat`.
-/

namespace Master

/-- `FinishStatus` from runtime/kernel.rs. -/
inductive FinishStatus
  | ok
  | commLost
  | exception
deriving DecidableEq, Repr

/-- `SubkernelState` from runtime/kernel.rs. -/
inductive SubkernelState
  | notLoaded
  | uploaded
  | running
  | finished (status : FinishStatus)
deriving DecidableEq, Repr

/-- The master-side `Error` enum (payloads of the Drtio/Sched variants elided). -/
inductive Error
  | timeout
  | sessionKilled
  | incorrectState
  | drtioError
  | schedError
  | rpcIoError
  | subkernelFinished
deriving DecidableEq, Repr

/-- `SubkernelFinished` record returned to the host session. -/
structure SubkernelFinished where
  id : Nat
  comm_lost : Bool
  exception : Option (List Nat)
deriving DecidableEq, Repr

/-- One registry entry (`struct Subkernel`). -/
structure Subkernel where
  destination : Nat
  data : List Nat
  state : SubkernelState
deriving DecidableEq, Repr

/-- `Subkernel::new`. -/
def Subkernel.new (destination : Nat) (data : List Nat) : Subkernel :=
  ⟨destination, data, .notLoaded⟩

/-- The `SUBKERNELS` BTreeMap, modelled as a pointwise finite-ish map. -/
abbrev Registry := Nat → Option Subkernel

/-- `BTreeMap::insert` (also used for in-place `get_mut` updates). -/
def Registry.insert (reg : Registry) (id : Nat) (sk : Subkernel) : Registry :=
  fun k => if k = id then some sk else reg k

/-- External transport calls issued by an operation (drtio primitives). -/
inductive Event
  | transportUpload (id dest : Nat)
  | transportLoad (id dest : Nat) (run : Bool)
  | transportRetrieveException (dest : Nat)
deriving DecidableEq, Repr

/-- `subkernel::add_subkernel`: insert or overwrite, state `NotLoaded`. -/
def add_subkernel (reg : Registry) (id : Nat) (destination : Nat) (kernel : List Nat) :
    Registry :=
  Registry.insert reg id (Subkernel.new destination kernel)

/-- `subkernel::load`.  `loadRes` is the outcome of the external
`drtio::subkernel_load` transport call; `none` is the `unwrap` panic on an
unregistered id. -/
def load (loadRes : Except Error Unit) (reg : Registry) (id : Nat) (run : Bool) :
    Option (Except Error Unit × Registry × List Event) :=
  match reg id with
  | none => none
  | some sk =>
    if sk.state ≠ .uploaded then
      some (.error .incorrectState, reg, [])
    else
      match loadRes with
      | .error e => some (.error e, reg, [.transportLoad id sk.destination run])
      | .ok _ =>
        if run then
          some (.ok (), Registry.insert reg id { sk with state := .running },
            [.transportLoad id sk.destination run])
        else
          some (.ok (), reg, [.transportLoad id sk.destination run])

/-- `subkernel::subkernel_finished`: absent ids are silently ignored. -/
def subkernel_finished (reg : Registry) (id : Nat) (with_exception : Bool) : Registry :=
  match reg id with
  | none => reg
  | some sk =>
    Registry.insert reg id
      { sk with state := .finished (if with_exception then .exception else .ok) }

/-- `subkernel::destination_changed`.  `uploadRes id` is the outcome of the
re-upload transport call attempted for entry `id` when the link comes up. -/
def destination_changed (uploadRes : Nat → Except Error Unit) (reg : Registry)
    (destination : Nat) (up : Bool) : Registry :=
  fun id =>
    match reg id with
    | none => none
    | some sk =>
      if sk.destination = destination then
        if up then
          match uploadRes id with
          | .ok _ => some { sk with state := .uploaded }
          | .error _ => some sk
        else
          some { sk with state :=
            match sk.state with
            | .running => .finished .commLost
            | _ => .notLoaded }
      else
        some sk

/-- `subkernel::retrieve_finish_status`.  `retrieveExc dest` is the outcome of
the external `drtio::subkernel_retrieve_exception` call.  Note the source sets
`state = Uploaded` before the transport call, so a transport error leaves the
entry `Uploaded`. -/
def retrieve_finish_status (retrieveExc : Nat → Except Error (List Nat))
    (reg : Registry) (id : Nat) :
    Option (Except Error SubkernelFinished × Registry × List Event) :=
  match reg id with
  | none => none
  | some sk =>
    match sk.state with
    | .finished status =>
      let reg1 := Registry.insert reg id { sk with state := .uploaded }
      match status with
      | .exception =>
        match retrieveExc sk.destination with
        | .error e => some (.error e, reg1, [.transportRetrieveException sk.destination])
        | .ok bytes =>
          some (.ok ⟨id, false, some bytes⟩, reg1,
            [.transportRetrieveException sk.destination])
      | .commLost => some (.ok ⟨id, true, none⟩, reg1, [])
      | .ok => some (.ok ⟨id, false, none⟩, reg1, [])
    | _ => some (.error .incorrectState, reg, [])

/-- Master-side interkernel `Message`. -/
structure Message where
  from_id : Nat
  tag_count : Nat
  tag : Nat
  data : List Nat
deriving DecidableEq, Repr

/-- The process-wide mutable state of the module: `SUBKERNELS`, `MESSAGE_QUEUE`
and `CURRENT_MESSAGES`. -/
structure MasterState where
  subkernels : Registry
  message_queue : List Message
  current_messages : Nat → Option Message

/-- `subkernel::clear_subkernels`: wipes all three maps. -/
def clear_subkernels (_st : MasterState) : MasterState :=
  { subkernels := fun _ => none
    message_queue := []
    current_messages := fun _ => none }

/-- `subkernel::message_handle_incoming`.  `data` is the fixed
`MASTER_PAYLOAD_MAX_SIZE` frame buffer; only `data[..length]` (and bytes 0/1
when a new partial message is created) are read. -/
def message_handle_incoming (st : MasterState) (id : Nat) (last : Bool)
    (length : Nat) (data : List Nat) : MasterState :=
  match st.subkernels id with
  | none => st
  | some _ =>
    let msg : Message :=
      match st.current_messages id with
      | some message => { message with data := message.data ++ data.take length }
      | none =>
        { from_id := id
          tag_count := data.getD 0 0
          tag := data.getD 1 0
          data := (data.take length).drop 2 }
    if last then
      { st with
        message_queue := st.message_queue ++ [msg]
        current_messages := fun k => if k = id then none else st.current_messages k }
    else
      { st with
        current_messages := fun k => if k = id then some msg else st.current_messages k }

/-- Outcome of the state pre-check at the top of `subkernel::message_await`
(the part executed before the cooperative wait). -/
inductive AwaitPre
  | panicked
  | fail (e : Error)
  | proceed
deriving DecidableEq, Repr

/-- The pre-check of `subkernel::message_await`: the source runs
`SUBKERNELS.get(&id).unwrap()`, so an unregistered id panics. -/
def message_await_precheck (reg : Registry) (id : Nat) : AwaitPre :=
  match reg id with
  | none => .panicked
  | some sk =>
    match sk.state with
    | .finished _ => .fail .subkernelFinished
    | .running => .proceed
    | _ => .fail .incorrectState

end Master

namespace Satman

/-- `SliceMeta` from satman/kernel.rs (`len` is a `u16` in the source; slice
sizes are far below 2^16 so `Nat` is faithful). -/
structure SliceMeta where
  len : Nat
  last : Bool
deriving DecidableEq, Repr

/-- `Sliceable`: a byte buffer with a cursor, sliced into fixed-size chunks. -/
structure Sliceable where
  it : Nat
  data : List Nat
deriving DecidableEq, Repr

/-- `Sliceable::new`. -/
def Sliceable.new (data : List Nat) : Sliceable :=
  ⟨0, data⟩

/-- The body generated by `get_slice_fn!` for slice size `size`
(`get_slice_sat` and `get_slice_master` instantiate `size` with
`SAT_PAYLOAD_MAX_SIZE` and `MASTER_PAYLOAD_MAX_SIZE`, both positive external
constants).  Returns the meta, the bytes written into `data_slice[..len]`, and
the updated `self`. -/
def Sliceable.get_slice (size : Nat) (s : Sliceable) :
    SliceMeta × List Nat × Sliceable :=
  if s.data.length = 0 then
    (⟨0, true⟩, [], s)
  else
    let len := min size (s.data.length - s.it)
    (⟨len, s.it + len == s.data.length⟩,
      (s.data.drop s.it).take len,
      { s with it := s.it + len })

/-- The payloads of successive `get_slice` calls, concatenated up to and
including the first call that reports `last = true`.  `fuel` bounds the
recursion; `data.length + 1` always suffices for a positive slice size. -/
def collect_slices (size : Nat) : Nat → Sliceable → List Nat
  | 0, _ => []
  | fuel + 1, s =>
    let out := Sliceable.get_slice size s
    if out.1.last then out.2.1 else out.2.1 ++ collect_slices size fuel out.2.2

/-- Satellite-side interkernel `Message`. -/
structure Message where
  count : Nat
  tag : Nat
  data : List Nat
deriving DecidableEq, Repr

/-- `OutMessageState`. -/
inductive OutMessageState
  | noMessage
  | messageReady
  | messageBeingSent
  | messageSent
  | messageAcknowledged
deriving DecidableEq, Repr

/-- `MessageManager`: inbound assembly plus the outbound half. -/
structure MessageManager where
  out_message : Option Sliceable
  out_state : OutMessageState
  in_queue : List Message
  in_buffer : Option Message
deriving DecidableEq, Repr

/-- `MessageManager::new`. -/
def MessageManager.new : MessageManager :=
  ⟨none, .noMessage, [], none⟩

/-- `MessageManager::handle_incoming`: same assembly rule as the master's. -/
def MessageManager.handle_incoming (m : MessageManager) (last : Bool)
    (length : Nat) (data : List Nat) : MessageManager :=
  let msg : Message :=
    match m.in_buffer with
    | some message => { message with data := message.data ++ data.take length }
    | none =>
      { count := data.getD 0 0, tag := data.getD 1 0, data := (data.take length).drop 2 }
  if last then
    { m with in_buffer := none, in_queue := m.in_queue ++ [msg] }
  else
    { m with in_buffer := some msg }

/-- `MessageManager::is_outgoing_ready` (result, updated manager). -/
def MessageManager.is_outgoing_ready (m : MessageManager) : Bool × MessageManager :=
  match m.out_state with
  | .messageReady => (true, { m with out_state := .messageBeingSent })
  | _ => (false, m)

/-- `MessageManager::was_message_acknowledged` (result, updated manager). -/
def MessageManager.was_message_acknowledged (m : MessageManager) :
    Bool × MessageManager :=
  match m.out_state with
  | .messageAcknowledged => (true, { m with out_state := .noMessage })
  | _ => (false, m)

/-- `MessageManager::get_outgoing_slice` (result with the written payload,
updated manager).  The `?` on `out_message.as_mut()` returns `None`. -/
def MessageManager.get_outgoing_slice (size : Nat) (m : MessageManager) :
    Option (SliceMeta × List Nat) × MessageManager :=
  if m.out_state ≠ .messageBeingSent then
    (none, m)
  else
    match m.out_message with
    | none => (none, m)
    | some sl =>
      let out := Sliceable.get_slice size sl
      if out.1.last then
        (some (out.1, out.2.1), { m with out_message := none, out_state := .messageSent })
      else
        (some (out.1, out.2.1), { m with out_message := some out.2.2 })

/-- `MessageManager::ack_slice` (result, whether the "unsolicited ack" warning
was logged, updated manager). -/
def MessageManager.ack_slice (m : MessageManager) : Bool × Bool × MessageManager :=
  match m.out_state with
  | .messageBeingSent => (true, false, m)
  | .messageSent => (false, false, { m with out_state := .messageAcknowledged })
  | _ => (false, true, m)

/-- `MessageManager::accept_outgoing`.  The RPC serializer is external;
`encoded` is the raw writer contents (`writer.into_inner()`).  The source does
`split_off(3)` then `data[0] = count`; an encoder output shorter than 4 bytes
would make that indexing panic (`none`). -/
def MessageManager.accept_outgoing (m : MessageManager) (count : Nat)
    (encoded : List Nat) : Option MessageManager :=
  match encoded.drop 3 with
  | [] => none
  | _ :: rest =>
    some { m with
      out_message := some (Sliceable.new (count :: rest))
      out_state := .messageReady }

/-- `MessageManager::get_incoming` (`in_queue.pop_front()`). -/
def MessageManager.get_incoming (m : MessageManager) :
    Option Message × MessageManager :=
  match m.in_queue with
  | [] => (none, m)
  | msg :: rest => (some msg, { m with in_queue := rest })

/-- One call of the outbound half, state effect only (used to reason about
which call sequences the outbound machine accepts). -/
inductive OutCall
  | acceptOutgoing (count : Nat) (encoded : List Nat)
  | isOutgoingReady
  | getOutgoingSlice (size : Nat)
  | ackSlice
  | wasMessageAcknowledged
deriving DecidableEq, Repr

/-- State transition of the outbound half for one call (`none` = panic). -/
def outStep (c : OutCall) (m : MessageManager) : Option MessageManager :=
  match c with
  | .acceptOutgoing count encoded => m.accept_outgoing count encoded
  | .isOutgoingReady => some m.is_outgoing_ready.2
  | .getOutgoingSlice size => some (m.get_outgoing_slice size).2
  | .ackSlice => some m.ack_slice.2.2
  | .wasMessageAcknowledged => some m.was_message_acknowledged.2

/-- `KernelState` of the per-run `Session`. -/
inductive KernelState
  | absent
  | loaded
  | running
  | msgAwait (max_time : Nat)
  | msgSending
deriving DecidableEq, Repr

/-- The satellite `Error` enum (string payloads elided; the
`KernelException` payload is kept). -/
inductive SatError
  | load
  | kernelNotFound
  | invalidPointer
  | unexpected
  | noMessage
  | awaitingMessage
  | subkernelIoError
  | kernelException (exc : Sliceable)
deriving DecidableEq, Repr

/-- Per-run `Session` (the log buffer is the `String` as a byte/char list). -/
structure Session where
  kernel_state : KernelState
  log_buffer : List Char
  last_exception : Option Sliceable
  messages : MessageManager
deriving DecidableEq, Repr

/-- `Session::new`. -/
def Session.new : Session :=
  ⟨.absent, [], none, MessageManager.new⟩

/-- `Session::running`. -/
def Session.running (s : Session) : Bool :=
  match s.kernel_state with
  | .absent | .loaded => false
  | .running | .msgAwait _ | .msgSending => true

/-- `Session::flush_log_buffer`.  The source slices
`log_buffer[log_buffer.len() - 1 ..]` with byte indices: on an empty buffer
the `usize` subtraction underflows and the indexing panics, and on a buffer
whose last character is multi-byte UTF-8 the byte index `len - 1` is not a
character boundary, so the slicing panics as well (both `none`).  Otherwise
the one-byte slice is compared with `"\n"`; on a match the buffered lines are
emitted to the external logging backend and the buffer is cleared. -/
def flush_log_buffer (buf : List Char) : Option (List Char) :=
  match buf.getLast? with
  | none => none
  | some c =>
    if c.utf8Size ≠ 1 then none
    else if c = Char.ofNat 10 then some [] else some buf

/-- `kern::SubkernelStatus` values used by `SubkernelMsgRecvReply`. -/
inductive SubkernelStatus
  | noError
  | timeout
deriving DecidableEq, Repr

/-- Mailbox replies sent to the kernel CPU by the modelled branches. -/
inductive KernReply
  | subkernelMsgRecvReply (status : SubkernelStatus) (count : Nat)
  | rtioDestinationStatusReply (up : Bool)
  | cacheGetReply (value : Nat)
  | cachePutReply (succeeded : Bool)
deriving DecidableEq, Repr

/-- Observable mailbox traffic towards the kernel CPU: `kern_send` of a reply,
or `kern_acknowledge` (a bare `mailbox::acknowledge`). -/
inductive SentItem
  | sent (r : KernReply)
  | acked
deriving DecidableEq, Repr

/-- Requests received from the kernel CPU over the mailbox.  `logMsg` carries
the externally formatted text; `runException` carries the outcome of the
external exception serializer (`none` = write failed, `SubkernelIoError`);
`subkernelMsgSend` carries the raw RPC-encoded writer bytes.  The i2c/spi
peripheral requests other than `RtioDestinationStatusRequest` are pure calls
into external peripheral drivers and are not enumerated. -/
inductive KernRequest
  | loadReply (ok : Bool)
  | logMsg (s : List Char)
  | logSlice (s : List Char)
  | rpcFlush
  | cacheGetRequest (key : List Nat)
  | cachePutRequest (key : List Nat) (value : Nat)
  | runFinished
  | runException (encoded : Option (List Nat))
  | subkernelMsgSend (count : Nat) (encoded : List Nat)
  | subkernelMsgRecvRequest (timeout : Nat)
  | rtioDestinationStatusRequest (destination : Nat)
deriving DecidableEq, Repr

/-- Outcomes of the external collaborators: the cache, the
`pass_message_to_kernel` mailbox dialog, and the exception serializer used by
`runtime_exception` (`none` = "Error writing exception data"). -/
structure Oracles where
  cacheGet : List Nat → Nat
  cachePut : List Nat → Nat → Bool
  passMessage : Message → Except SatError Unit
  synthException : SatError → Option (List Nat)

/-- `process_kern_hwreq`, dispatch outcome `(handled, sends)`.  Only the pure
`RtioDestinationStatusRequest` branch is enumerated here; the remaining
branches call external i2c/spi/rtio drivers and reply analogously. -/
def process_kern_hwreq (rank : Nat) : KernRequest → Bool × List SentItem
  | .rtioDestinationStatusRequest destination =>
    (true, [.sent (.rtioDestinationStatusReply (destination == rank))])
  | _ => (false, [])

/-- `Manager::process_kern_message` (one non-blocking mailbox step).
`req = none` models an empty mailbox (`kern_recv` returns `NoMessage`).
Returns `(result, session, sent)`; `none` is a panic (empty-buffer log flush,
or `data[0]` indexing in `accept_outgoing`).  The `kernel_cpu::stop()` /
`cache.unborrow()` hardware effects of the finish branches are outside the
model. -/
def process_kern_message (o : Oracles) (now rank : Nat) (req : Option KernRequest)
    (s : Session) : Option (Except SatError (Option Bool) × Session × List SentItem) :=
  match req with
  | none => some (.error .noMessage, s, [])
  | some request =>
    match request, s.kernel_state with
    | .loadReply _, .loaded => some (.ok none, s, [])
    | _, .running =>
      match process_kern_hwreq rank request with
      | (true, sentHw) => some (.ok none, s, sentHw)
      | (false, _) =>
        match request with
        | .logMsg text =>
          match flush_log_buffer (s.log_buffer ++ text) with
          | none => none
          | some buf => some (.ok none, { s with log_buffer := buf }, [.acked])
        | .logSlice text =>
          match flush_log_buffer (s.log_buffer ++ text) with
          | none => none
          | some buf => some (.ok none, { s with log_buffer := buf }, [.acked])
        | .rpcFlush => some (.ok none, s, [.acked])
        | .cacheGetRequest key =>
          some (.ok none, s, [.sent (.cacheGetReply (o.cacheGet key))])
        | .cachePutRequest key value =>
          some (.ok none, s, [.sent (.cachePutReply (o.cachePut key value))])
        | .runFinished =>
          some (.ok (some false), { s with kernel_state := .absent }, [])
        | .runException enc =>
          match enc with
          | some bytes =>
            some (.ok (some true),
              { s with kernel_state := .absent,
                       last_exception := some (Sliceable.new bytes) }, [])
          | none => some (.error .subkernelIoError, { s with kernel_state := .absent }, [])
        | .subkernelMsgSend count encoded =>
          match s.messages.accept_outgoing count encoded with
          | none => none
          | some mm =>
            some (.ok none, { s with kernel_state := .msgSending, messages := mm }, [])
        | .subkernelMsgRecvRequest timeout =>
          some (.ok none, { s with kernel_state := .msgAwait (now + timeout) }, [])
        | _ => some (.error .unexpected, s, [])
    | _, _ => some (.error .unexpected, s, [])

/-- `Manager::process_external_messages` (phase A of a tick).
Returns `(result, session, sent)`. -/
def process_external_messages (o : Oracles) (now : Nat) (s : Session) :
    Except SatError Unit × Session × List SentItem :=
  match s.kernel_state with
  | .msgAwait max_time =>
    if max_time < now then
      (.ok (), { s with kernel_state := .running },
        [.sent (.subkernelMsgRecvReply .timeout 0)])
    else
      match s.messages.get_incoming with
      | (some message, mm) =>
        let s1 := { s with kernel_state := .running, messages := mm }
        match o.passMessage message with
        | .ok _ =>
          (.ok (), s1, [.sent (.subkernelMsgRecvReply .noError message.count)])
        | .error e =>
          (.error e, s1, [.sent (.subkernelMsgRecvReply .noError message.count)])
      | (none, _) => (.error .awaitingMessage, s, [])
  | .msgSending =>
    match s.messages.was_message_acknowledged with
    | (true, mm) => (.ok (), { s with kernel_state := .running, messages := mm }, [.acked])
    | (false, _) => (.error .awaitingMessage, s, [])
  | _ => (.ok (), s, [])

/-- `SubkernelFinished` (satellite view). -/
structure SubkernelFinished where
  id : Nat
  with_exception : Bool
deriving DecidableEq, Repr

/-- The `Manager` fields the session loop touches (the kernel store and cache
are external to the modelled claims). -/
structure Manager where
  current_id : Nat
  session : Session
  last_finished : Option SubkernelFinished
deriving DecidableEq, Repr

/-- `Manager::runtime_exception`: synthesise a SubkernelError record via the
external serializer and store it as `last_exception` (a write error only
logs). -/
def Manager.runtime_exception (mgr : Manager) (o : Oracles) (cause : SatError) :
    Manager :=
  match o.synthException cause with
  | some bytes =>
    { mgr with session := { mgr.session with last_exception := some (Sliceable.new bytes) } }
  | none => mgr

/-- Phase B of `Manager::process_kern_requests`: run one mailbox step and fold
its result into the manager, as in the source `match self.process_kern_message`
block (`stop()` sets the kernel state to `Absent`). -/
def Manager.run_kern_phase (mgr : Manager) (o : Oracles) (now rank : Nat)
    (req : Option KernRequest) : Option (Manager × List SentItem) :=
  match process_kern_message o now rank req mgr.session with
  | none => none
  | some (res, sB, sentB) =>
    match res with
    | .ok (some we) =>
      some ({ mgr with session := sB,
                       last_finished := some ⟨mgr.current_id, we⟩ }, sentB)
    | .ok none => some ({ mgr with session := sB }, sentB)
    | .error .noMessage => some ({ mgr with session := sB }, sentB)
    | .error e =>
      let m1 : Manager := { mgr with session := { sB with kernel_state := .absent } }
      let m2 := m1.runtime_exception o e
      some ({ m2 with last_finished := some ⟨mgr.current_id, true⟩ }, sentB)

/-- `Manager::process_kern_requests`: no-op unless running, then phase A
(external messages) followed by one mailbox step.  `none` = panic. -/
def Manager.process_kern_requests (mgr : Manager) (o : Oracles) (now rank : Nat)
    (req : Option KernRequest) : Option (Manager × List SentItem) :=
  if mgr.session.running = false then
    some (mgr, [])
  else
    match process_external_messages o now mgr.session with
    | (.error .awaitingMessage, sA, sentA) => some ({ mgr with session := sA }, sentA)
    | (.error (.kernelException exc), sA, sentA) =>
      let m1 : Manager :=
        { mgr with
          session := { sA with kernel_state := .absent, last_exception := some exc }
          last_finished := some ⟨mgr.current_id, true⟩ }
      match m1.run_kern_phase o now rank req with
      | none => none
      | some (m2, sentB) => some (m2, sentA ++ sentB)
    | (.error e, sA, sentA) =>
      let m1 : Manager := { mgr with session := { sA with kernel_state := .absent } }
      let m2 := { m1.runtime_exception o e with
                    last_finished := some (⟨mgr.current_id, true⟩ : SubkernelFinished) }
      match m2.run_kern_phase o now rank req with
      | none => none
      | some (m3, sentB) => some (m3, sentA ++ sentB)
    | (.ok _, sA, sentA) =>
      match ({ mgr with session := sA } : Manager).run_kern_phase o now rank req with
      | none => none
      | some (m2, sentB) => some (m2, sentA ++ sentB)

end Satman

section MasterTheorems

open Master

/-- Concrete sample: an entry in state `Uploaded` on destination 3. -/
def w_sk_upl : Master.Subkernel := ⟨3, [4], .uploaded⟩

/-- Concrete sample: an entry in state `Finished{Exception}` on destination 2. -/
def w_sk_exc : Master.Subkernel := ⟨2, [1, 2], .finished .exception⟩

/-- Concrete sample: an entry in state `Running` on destination 2. -/
def w_sk_run : Master.Subkernel := ⟨2, [1], .running⟩

/-- Concrete sample registry holding only `w_sk_upl` at id 5. -/
def w_reg2 : Master.Registry := fun k => if k = 5 then some w_sk_upl else none

/-- Concrete sample registry holding only `w_sk_exc` at id 7. -/
def w_reg : Master.Registry := fun k => if k = 7 then some w_sk_exc else none

/-- Concrete sample registry holding only `w_sk_run` at id 1. -/
def w_reg3 : Master.Registry := fun k => if k = 1 then some w_sk_run else none

/-- C2: for every registered id, master `load(id, run)` returns
`IncorrectState` and changes nothing when the entry's state is not `Uploaded`
(no transport call is issued); when the state is `Uploaded` and
`Transport.load` succeeds, the state becomes `Running` if `run` is true and
stays `Uploaded` (registry unchanged) if `run` is false. -/
theorem c2_load_requires_uploaded (loadRes : Except Master.Error Unit)
    (reg : Registry) (id : Nat) (run : Bool) :
    (∀ sk, reg id = some sk → sk.state ≠ .uploaded →
      Master.load loadRes reg id run = some (.error .incorrectState, reg, []))
    ∧ (∀ sk, reg id = some sk → sk.state = .uploaded → loadRes = .ok () →
      Master.load loadRes reg id run =
        some (.ok (),
          (if run then Registry.insert reg id { sk with state := .running } else reg),
          [.transportLoad id sk.destination run])) := by
  constructor
  · intro sk h hst
    simp [Master.load, h, hst]
  · intro sk h hst hres
    cases run <;> simp [Master.load, h, hst, hres]

/-- Witness for C2 at a concrete registry: a load with `run = true` on an
`Uploaded` entry succeeds and moves it to `Running`. -/
theorem c2_witness :
    Master.load (.ok ()) w_reg2 5 true =
      some (.ok (), Registry.insert w_reg2 5 { w_sk_upl with state := .running },
        [.transportLoad 5 3 true]) := by
  have h := (c2_load_requires_uploaded (.ok ()) w_reg2 5 true).2 w_sk_upl rfl rfl rfl
  simpa [w_sk_upl] using h

/-- C1: for every id whose registry state is `Finished{status}`,
`retrieve_finish_status(id)` returns `{id, comm_lost = (status == CommLost),
exception = Some(bytes from Transport.retrieve_exception) iff
status == Exception else None}`, pulls exception bytes from the satellite iff
`status == Exception`, and sets the state to `Uploaded` — so a second call
immediately after a successful one returns `IncorrectState`; for every
registered id whose state is not `Finished{*}`, it returns `IncorrectState`
with the registry unchanged. -/
theorem c1_retrieve_finish_status (retrieveExc : Nat → Except Master.Error (List Nat))
    (reg : Registry) (id : Nat) :
    (∀ sk status bytes, reg id = some sk → sk.state = .finished status →
      (status = .exception → retrieveExc sk.destination = .ok bytes) →
      Master.retrieve_finish_status retrieveExc reg id =
        some (.ok ⟨id, status == .commLost,
            if status = .exception then some bytes else none⟩,
          Registry.insert reg id { sk with state := .uploaded },
          if status = .exception then [.transportRetrieveException sk.destination] else [])
      ∧ Master.retrieve_finish_status retrieveExc
          (Registry.insert reg id { sk with state := .uploaded }) id =
          some (.error .incorrectState,
            Registry.insert reg id { sk with state := .uploaded }, []))
    ∧ (∀ sk, reg id = some sk → (∀ status, sk.state ≠ .finished status) →
      Master.retrieve_finish_status retrieveExc reg id =
        some (.error .incorrectState, reg, [])) := by
  constructor
  · intro sk status bytes h hst hexc
    constructor
    · cases status with
      | exception =>
        have hb := hexc rfl
        simp [Master.retrieve_finish_status, h, hst, hb]
      | ok => simp [Master.retrieve_finish_status, h, hst]
      | commLost => simp [Master.retrieve_finish_status, h, hst]
    · have h2 : Registry.insert reg id { sk with state := .uploaded } id =
          some { sk with state := .uploaded } := by
        simp [Registry.insert]
      simp [Master.retrieve_finish_status, h2]
  · intro sk h hne
    cases hst : sk.state with
    | finished status => exact absurd hst (hne status)
    | notLoaded => simp [Master.retrieve_finish_status, h, hst]
    | uploaded => simp [Master.retrieve_finish_status, h, hst]
    | running => simp [Master.retrieve_finish_status, h, hst]

/-- Witness for C1 at a concrete registry: retrieving a `Finished{Exception}`
entry returns the transport's bytes and re-arms the entry as `Uploaded`. -/
theorem c1_witness :
    Master.retrieve_finish_status (fun _ => .ok [9]) w_reg 7 =
      some (.ok ⟨7, false, some [9]⟩,
        Registry.insert w_reg 7 { w_sk_exc with state := .uploaded },
        [.transportRetrieveException 2]) := by
  have h := (c1_retrieve_finish_status (fun _ => .ok [9]) w_reg 7).1
    w_sk_exc .exception [9] rfl rfl (fun _ => rfl)
  simpa [w_sk_exc] using h.1

/-- C9 (implicit): `retrieve_finish_status` is not atomic on error — for an id
in state `Finished{Exception}` it sets the state to `Uploaded` before calling
`Transport.retrieve_exception`, so if the transport call fails the function
returns the error yet the `Finished` status has already been consumed (the
entry is `Uploaded`) and a retry through this path returns `IncorrectState`. -/
theorem c9_retrieve_consumes_status_before_transport
    (retrieveExc : Nat → Except Master.Error (List Nat)) (reg : Registry)
    (id : Nat) (sk : Subkernel) (e : Master.Error)
    (h : reg id = some sk) (hst : sk.state = .finished .exception)
    (herr : retrieveExc sk.destination = .error e) :
    Master.retrieve_finish_status retrieveExc reg id =
      some (.error e, Registry.insert reg id { sk with state := .uploaded },
        [.transportRetrieveException sk.destination])
    ∧ Master.retrieve_finish_status retrieveExc
        (Registry.insert reg id { sk with state := .uploaded }) id =
        some (.error .incorrectState,
          Registry.insert reg id { sk with state := .uploaded }, []) := by
  constructor
  · simp [Master.retrieve_finish_status, h, hst, herr]
  · have h2 : Registry.insert reg id { sk with state := .uploaded } id =
        some { sk with state := .uploaded } := by
      simp [Registry.insert]
    simp [Master.retrieve_finish_status, h2]

/-- Witness for C9 at a concrete registry: a failing transport call returns
the error while the entry has already moved to `Uploaded`. -/
theorem c9_witness :
    Master.retrieve_finish_status (fun _ => .error .drtioError) w_reg 7 =
      some (.error .drtioError,
        Registry.insert w_reg 7 { w_sk_exc with state := .uploaded },
        [.transportRetrieveException 2]) := by
  have h := c9_retrieve_consumes_status_before_transport
    (fun _ => .error .drtioError) w_reg 7 w_sk_exc .drtioError rfl rfl rfl
  simpa [w_sk_exc] using h.1

/-- C3: after `destination_changed(d, false)` no entry with destination `d`
has state `Running`: every such entry that was `Running` becomes
`Finished{CommLost}`, every other entry with destination `d` becomes
`NotLoaded`, and entries with a different destination are unchanged. -/
theorem c3_destination_changed_down (uploadRes : Nat → Except Master.Error Unit)
    (reg : Registry) (d : Nat) :
    (∀ id sk, reg id = some sk → sk.destination = d → sk.state = .running →
      Master.destination_changed uploadRes reg d false id =
        some { sk with state := .finished .commLost })
    ∧ (∀ id sk, reg id = some sk → sk.destination = d → sk.state ≠ .running →
      Master.destination_changed uploadRes reg d false id =
        some { sk with state := .notLoaded })
    ∧ (∀ id sk, reg id = some sk → sk.destination ≠ d →
      Master.destination_changed uploadRes reg d false id = some sk)
    ∧ (∀ id sk, Master.destination_changed uploadRes reg d false id = some sk →
      sk.destination = d → sk.state ≠ .running) := by
  refine ⟨?_, ?_, ?_, ?_⟩
  · intro id sk h hd hst
    simp [Master.destination_changed, h, hd, hst]
  · intro id sk h hd hst
    cases hs : sk.state with
    | running => exact absurd hs hst
    | notLoaded => simp [Master.destination_changed, h, hd, hs]
    | uploaded => simp [Master.destination_changed, h, hd, hs]
    | finished status => simp [Master.destination_changed, h, hd, hs]
  · intro id sk h hd
    simp [Master.destination_changed, h, hd]
  · intro id sk h hd
    cases hr : reg id with
    | none => simp [Master.destination_changed, hr] at h
    | some sk0 =>
      by_cases hdd : sk0.destination = d
      · simp [Master.destination_changed, hr, hdd] at h
        cases hs : sk0.state <;> simp [hs] at h <;> simp [← h]
      · simp [Master.destination_changed, hr, hdd] at h
        rw [← h] at hd
        exact absurd hd hdd

/-- Witness for C3 at a concrete registry: the `Running` entry on the downed
destination becomes `Finished{CommLost}` and is no longer `Running`. -/
theorem c3_witness :
    Master.destination_changed (fun _ => .ok ()) w_reg3 2 false 1 =
      some { w_sk_run with state := .finished .commLost }
    ∧ ({ w_sk_run with state := .finished .commLost } : Subkernel).state ≠ .running := by
  constructor
  · exact (c3_destination_changed_down (fun _ => .ok ()) w_reg3 2).1 1 w_sk_run rfl rfl rfl
  · decide

/-- Concrete state for C4: id 7 is registered and `Running`, and one fully
assembled message from id 7 sits in `MESSAGE_QUEUE`. -/
def c4_state : Master.MasterState :=
  { subkernels := fun k => if k = 7 then some w_sk_run else none
    message_queue := [⟨7, 1, 0, [5]⟩]
    current_messages := fun _ => none }

/-- C4 counterexample: after `clear_subkernels`, id 7 is indeed gone from the
message FIFO, but `message_await(7, _)` does not return `IncorrectState`: its
registry lookup is `SUBKERNELS.get(&id).unwrap()`, which panics on the now
unregistered id. -/
theorem c4_clear_then_await_counterexample :
    (Master.clear_subkernels c4_state).message_queue = []
    ∧ Master.message_await_precheck (Master.clear_subkernels c4_state).subkernels 7 =
        .panicked
    ∧ Master.message_await_precheck (Master.clear_subkernels c4_state).subkernels 7 ≠
        .fail .incorrectState := by
  refine ⟨rfl, rfl, ?_⟩
  decide

/-- C4 (amended): for every id present in `MESSAGE_QUEUE`, `clear_subkernels`
removes it — it empties the registry, the message FIFO and the
partial-assembly map — and a subsequent `message_await(id, _)` panics on the
registry lookup (`unwrap` of `None`) rather than returning `IncorrectState`,
because the id is no longer registered. -/
theorem c4_amended_clear_subkernels (st : Master.MasterState) (id : Nat) :
    (Master.clear_subkernels st).subkernels id = none
    ∧ (Master.clear_subkernels st).message_queue = []
    ∧ (Master.clear_subkernels st).current_messages id = none
    ∧ Master.message_await_precheck (Master.clear_subkernels st).subkernels id =
        .panicked :=
  ⟨rfl, rfl, rfl, rfl⟩

/-- C7: master `message_handle_incoming` drops the frame when the id is not
registered; otherwise, when no partial message exists for the id it creates
one with `tag_count = frame[0]`, `tag = frame[1]`, `data = frame[2..len]`,
when a partial exists it appends `frame[0..len]`, and when `last` is true it
moves the assembled message to the tail of `MESSAGE_QUEUE`.  Concretely, for
registered id 7, frames `{last:false, len:5, data:[2,9,a,a,a]}` then
`{last:true, len:3, data:[b,b,b]}` leave the queue tail equal to
`{from_id:7, tag_count:2, tag:9, data:[a,a,a,b,b,b]}`. -/
theorem c7_message_handle_incoming (st : Master.MasterState) (id : Nat)
    (last : Bool) (length : Nat) (frame : List Nat) :
    (st.subkernels id = none →
      Master.message_handle_incoming st id last length frame = st)
    ∧ (∀ sk, st.subkernels id = some sk → st.current_messages id = none → last = false →
      (Master.message_handle_incoming st id last length frame).current_messages id =
        some ⟨id, frame.getD 0 0, frame.getD 1 0, (frame.take length).drop 2⟩
      ∧ (Master.message_handle_incoming st id last length frame).message_queue =
          st.message_queue)
    ∧ (∀ sk m, st.subkernels id = some sk → st.current_messages id = some m → last = false →
      (Master.message_handle_incoming st id last length frame).current_messages id =
        some { m with data := m.data ++ frame.take length }
      ∧ (Master.message_handle_incoming st id last length frame).message_queue =
          st.message_queue)
    ∧ (∀ sk, st.subkernels id = some sk → st.current_messages id = none → last = true →
      (Master.message_handle_incoming st id last length frame).message_queue =
        st.message_queue ++ [⟨id, frame.getD 0 0, frame.getD 1 0, (frame.take length).drop 2⟩]
      ∧ (Master.message_handle_incoming st id last length frame).current_messages id = none)
    ∧ (∀ sk m, st.subkernels id = some sk → st.current_messages id = some m → last = true →
      (Master.message_handle_incoming st id last length frame).message_queue =
        st.message_queue ++ [{ m with data := m.data ++ frame.take length }]
      ∧ (Master.message_handle_incoming st id last length frame).current_messages id = none)
    ∧ (∀ a b sk, st.subkernels 7 = some sk → st.current_messages 7 = none →
      (Master.message_handle_incoming
          (Master.message_handle_incoming st 7 false 5 [2, 9, a, a, a])
          7 true 3 [b, b, b]).message_queue =
        st.message_queue ++ [⟨7, 2, 9, [a, a, a, b, b, b]⟩]) := by
  refine ⟨?_, ?_, ?_, ?_, ?_, ?_⟩
  · intro h
    simp [Master.message_handle_incoming, h]
  · intro sk h hcur hlast
    simp [Master.message_handle_incoming, h, hcur, hlast]
  · intro sk m h hcur hlast
    simp [Master.message_handle_incoming, h, hcur, hlast]
  · intro sk h hcur hlast
    simp [Master.message_handle_incoming, h, hcur, hlast]
  · intro sk m h hcur hlast
    simp [Master.message_handle_incoming, h, hcur, hlast]
  · intro a b sk h hcur
    simp [Master.message_handle_incoming, h, hcur]

/-- Witness for C7: the two-frame scenario S4 on the concrete state
`c4_state` (id 7 registered, no partial message) appends
`{from_id:7, tag_count:2, tag:9, data:[170,170,170,187,187,187]}` to the
queue tail. -/
theorem c7_witness :
    (Master.message_handle_incoming
        (Master.message_handle_incoming c4_state 7 false 5 [2, 9, 170, 170, 170])
        7 true 3 [187, 187, 187]).message_queue =
      c4_state.message_queue ++ [⟨7, 2, 9, [170, 170, 170, 187, 187, 187]⟩] := by
  exact (c7_message_handle_incoming c4_state 7 false 5 [2, 9, 170, 170, 170]).2.2.2.2.2
    170 187 w_sk_run rfl rfl

end MasterTheorems

section SatmanTheorems

open Satman

/-- Helper for C6: with a positive slice size and enough fuel, the collected
`get_slice` payloads starting from cursor `it` are exactly the bytes from `it`
on. -/
theorem collect_slices_eq_drop (size : Nat) (hs : 0 < size) :
    ∀ fuel (s : Sliceable), s.it ≤ s.data.length → s.data.length - s.it < fuel →
      collect_slices size fuel s = s.data.drop s.it := by
  intro fuel
  induction fuel with
  | zero => intro s _ h2; exact absurd h2 (Nat.not_lt_zero _)
  | succ fuel ih =>
    intro s h1 h2
    obtain ⟨it, data⟩ := s
    simp only at h1 h2
    by_cases hd : data.length = 0
    · have hdata : data = [] := List.length_eq_zero.mp hd
      subst hdata
      simp [collect_slices, Sliceable.get_slice]
    · by_cases hlast : it + min size (data.length - it) = data.length
      · have hlen : min size (data.length - it) = data.length - it := by omega
        have h3 : it + (data.length - it) = data.length := by omega
        simp [collect_slices, Sliceable.get_slice, hd, hlen, hlast, h3]
      · have hlen : min size (data.length - it) = size := by omega
        have hit : it + size ≤ data.length := by omega
        have hfuel : data.length - (it + size) < fuel := by omega
        have hrec := ih ⟨it + size, data⟩ hit hfuel
        simp only at hrec
        simp [collect_slices, Sliceable.get_slice, hd, hlen, hlast, hrec]
        omega

/-- C6: for every byte vector `data`, concatenating the payloads of successive
`get_slice` calls on `Sliceable::new(data)`, up to and including the first
call that returns `last = true`, reproduces `data` exactly; and after a call
has returned `last = true`, every further call returns `{len = 0, last = true}`
and leaves the cursor fixed.  Both slice sizes are covered since the slice
size is an arbitrary positive parameter. -/
theorem c6_sliceable_roundtrip (size : Nat) (hs : 0 < size) :
    (∀ data : List Nat,
      collect_slices size (data.length + 1) (Sliceable.new data) = data)
    ∧ (∀ s : Sliceable, (Sliceable.get_slice size s).1.last = true →
      Sliceable.get_slice size (Sliceable.get_slice size s).2.2 =
        (⟨0, true⟩, [], (Sliceable.get_slice size s).2.2)) := by
  constructor
  · intro data
    have h := collect_slices_eq_drop size hs (data.length + 1) (Sliceable.new data)
      (by simp [Sliceable.new]) (by simp [Sliceable.new])
    simpa [Sliceable.new] using h
  · intro s hlast
    obtain ⟨it, data⟩ := s
    by_cases hd : data.length = 0
    · have hdata : data = [] := List.length_eq_zero.mp hd
      subst hdata
      simp [Sliceable.get_slice]
    · simp only [Sliceable.get_slice, hd, if_neg] at hlast ⊢
      have heq : it + min size (data.length - it) = data.length := by
        simpa using hlast
      simp [heq, Nat.sub_self]

/-- Witness for C6 at slice size 2 and a concrete five-byte buffer: the
payloads concatenate back to the buffer. -/
theorem c6_witness :
    0 < 2
    ∧ collect_slices 2 6 (Sliceable.new [1, 2, 3, 4, 5]) = [1, 2, 3, 4, 5] := by
  exact ⟨by decide, (c6_sliceable_roundtrip 2 (by decide)).1 [1, 2, 3, 4, 5]⟩

/-- Helper for C5: `get_outgoing_slice` produces a slice exactly when the
outbound half is `MessageBeingSent` and holds a message. -/
theorem get_outgoing_slice_isSome (m : MessageManager) (size : Nat) :
    (m.get_outgoing_slice size).1.isSome ↔
      (m.out_state = .messageBeingSent ∧ m.out_message.isSome) := by
  obtain ⟨om, os, iq, ib⟩ := m
  cases os <;> cases om <;>
    simp [MessageManager.get_outgoing_slice] <;> split <;> simp

/-- Helper for C5: a produced slice moves the outbound half to `MessageSent`
exactly when it is the last slice. -/
theorem get_outgoing_slice_sent_iff (m : MessageManager) (size : Nat)
    (meta : SliceMeta) (payload : List Nat)
    (h : (m.get_outgoing_slice size).1 = some (meta, payload)) :
    ((m.get_outgoing_slice size).2.out_state = .messageSent ↔ meta.last = true) := by
  obtain ⟨om, os, iq, ib⟩ := m
  cases os <;> cases om <;>
    simp [MessageManager.get_outgoing_slice] at h ⊢ <;>
    rcases hlast : (Sliceable.get_slice size _).1.last <;>
    simp_all

/-- Helper for C5: each outbound state other than `NoMessage` is entered by a
unique call from a unique predecessor state: `MessageReady` only by
`accept_outgoing`, `MessageBeingSent` only by `is_outgoing_ready` from
`MessageReady`, `MessageSent` only by `get_outgoing_slice` from
`MessageBeingSent`, and `MessageAcknowledged` only by `ack_slice` from
`MessageSent`. -/
theorem outStep_entry (c : OutCall) (m m1 : MessageManager)
    (h : outStep c m = some m1) :
    ((m1.out_state = .messageAcknowledged ∧ m.out_state ≠ .messageAcknowledged) →
      c = .ackSlice ∧ m.out_state = .messageSent)
    ∧ ((m1.out_state = .messageSent ∧ m.out_state ≠ .messageSent) →
      (∃ size, c = .getOutgoingSlice size) ∧ m.out_state = .messageBeingSent)
    ∧ ((m1.out_state = .messageBeingSent ∧ m.out_state ≠ .messageBeingSent) →
      c = .isOutgoingReady ∧ m.out_state = .messageReady)
    ∧ ((m1.out_state = .messageReady ∧ m.out_state ≠ .messageReady) →
      ∃ count encoded, c = .acceptOutgoing count encoded) := by
  obtain ⟨om, os, iq, ib⟩ := m
  cases c with
  | acceptOutgoing count encoded =>
    cases hdrop : encoded.drop 3 with
    | nil => simp [outStep, MessageManager.accept_outgoing, hdrop] at h
    | cons x rest =>
      simp [outStep, MessageManager.accept_outgoing, hdrop] at h
      subst h
      simp
  | isOutgoingReady =>
    cases os <;> simp [outStep, MessageManager.is_outgoing_ready] at h <;>
      subst h <;> simp
  | getOutgoingSlice size =>
    cases os <;> cases om <;>
      simp [outStep, MessageManager.get_outgoing_slice] at h <;>
      (try split at h) <;> subst h <;> simp
  | ackSlice =>
    cases os <;> simp [outStep, MessageManager.ack_slice] at h <;>
      subst h <;> simp
  | wasMessageAcknowledged =>
    cases os <;> simp [outStep, MessageManager.was_message_acknowledged] at h <;>
      subst h <;> simp

/-- C5: the outbound half accepts exactly the documented sequence.
`accept_outgoing` is the only call that yields `MessageReady`;
`is_outgoing_ready` reports true iff `MessageReady` (so `NoMessage` is never
reported ready) and is the only entry into `MessageBeingSent`;
`get_outgoing_slice` produces slices only while `MessageBeingSent` and is the
only entry into `MessageSent`, which it enters exactly on the slice with
`last = true`; `ack_slice` returns true (no warning) while `MessageBeingSent`,
returns false moving `MessageSent` to `MessageAcknowledged` (the only entry),
and returns false with a logged warning from `NoMessage`/`MessageReady`;
`was_message_acknowledged` returns true iff `MessageAcknowledged` and resets
to `NoMessage`. -/
theorem c5_outgoing_protocol (m : MessageManager) :
    (m.is_outgoing_ready.1 = true ↔ m.out_state = .messageReady)
    ∧ (m.out_state = .messageReady →
      m.is_outgoing_ready.2.out_state = .messageBeingSent)
    ∧ (∀ size, ((m.get_outgoing_slice size).1.isSome ↔
      (m.out_state = .messageBeingSent ∧ m.out_message.isSome)))
    ∧ (∀ size meta payload, (m.get_outgoing_slice size).1 = some (meta, payload) →
      ((m.get_outgoing_slice size).2.out_state = .messageSent ↔ meta.last = true))
    ∧ (m.out_state = .messageBeingSent → m.ack_slice = (true, false, m))
    ∧ (m.out_state = .messageSent →
      m.ack_slice = (false, false, { m with out_state := .messageAcknowledged }))
    ∧ (m.out_state = .noMessage ∨ m.out_state = .messageReady →
      m.ack_slice = (false, true, m))
    ∧ (m.was_message_acknowledged.1 = true ↔ m.out_state = .messageAcknowledged)
    ∧ (m.out_state = .messageAcknowledged →
      m.was_message_acknowledged.2.out_state = .noMessage)
    ∧ (∀ count encoded m1, m.accept_outgoing count encoded = some m1 →
      m1.out_state = .messageReady)
    ∧ (∀ c m1, outStep c m = some m1 →
      ((m1.out_state = .messageAcknowledged ∧ m.out_state ≠ .messageAcknowledged) →
        c = .ackSlice ∧ m.out_state = .messageSent)
      ∧ ((m1.out_state = .messageSent ∧ m.out_state ≠ .messageSent) →
        (∃ size, c = .getOutgoingSlice size) ∧ m.out_state = .messageBeingSent)
      ∧ ((m1.out_state = .messageBeingSent ∧ m.out_state ≠ .messageBeingSent) →
        c = .isOutgoingReady ∧ m.out_state = .messageReady)
      ∧ ((m1.out_state = .messageReady ∧ m.out_state ≠ .messageReady) →
        ∃ count encoded, c = .acceptOutgoing count encoded)) := by
  refine ⟨?_, ?_, get_outgoing_slice_isSome m, get_outgoing_slice_sent_iff m,
    ?_, ?_, ?_, ?_, ?_, ?_, fun c m1 h => outStep_entry c m m1 h⟩
  · obtain ⟨om, os, iq, ib⟩ := m
    cases os <;> simp [MessageManager.is_outgoing_ready]
  · intro hst
    obtain ⟨om, os, iq, ib⟩ := m
    cases os <;> simp_all [MessageManager.is_outgoing_ready]
  · intro hst
    obtain ⟨om, os, iq, ib⟩ := m
    cases os <;> simp_all [MessageManager.ack_slice]
  · intro hst
    obtain ⟨om, os, iq, ib⟩ := m
    cases os <;> simp_all [MessageManager.ack_slice]
  · intro hst
    obtain ⟨om, os, iq, ib⟩ := m
    rcases hst with hst | hst <;> cases os <;> simp_all [MessageManager.ack_slice]
  · obtain ⟨om, os, iq, ib⟩ := m
    cases os <;> simp [MessageManager.was_message_acknowledged]
  · intro hst
    obtain ⟨om, os, iq, ib⟩ := m
    cases os <;> simp_all [MessageManager.was_message_acknowledged]
  · intro count encoded m1 h
    cases hdrop : encoded.drop 3 with
    | nil => simp [MessageManager.accept_outgoing, hdrop] at h
    | cons x rest =>
      simp [MessageManager.accept_outgoing, hdrop] at h
      subst h
      rfl

/-- Witness for C5: a full accepting run at a concrete two-byte message sent
in one slice — accept, ready, one last slice, ack(false), acknowledged. -/
theorem c5_witness :
    ∃ m1 m2 : MessageManager,
      MessageManager.new.accept_outgoing 1 [0, 0, 0, 7, 8] = some m1
      ∧ m1.is_outgoing_ready.1 = true
      ∧ m1.is_outgoing_ready.2.out_state = .messageBeingSent
      ∧ (m1.is_outgoing_ready.2.get_outgoing_slice 4).1.isSome = true
      ∧ (m1.is_outgoing_ready.2.get_outgoing_slice 4).2.out_state = .messageSent
      ∧ (m1.is_outgoing_ready.2.get_outgoing_slice 4).2.ack_slice =
          (false, false, m2)
      ∧ m2.was_message_acknowledged.1 = true
      ∧ m2.was_message_acknowledged.2.out_state = .noMessage := by
  refine ⟨⟨some (Sliceable.new [1, 8]), .messageReady, [], none⟩,
    ⟨none, .messageAcknowledged, [], none⟩, rfl, ?_, ?_, ?_, ?_, ?_, ?_, ?_⟩
  · exact (c5_outgoing_protocol _).1.mpr rfl
  · exact (c5_outgoing_protocol _).2.1 rfl
  · exact ((c5_outgoing_protocol _).2.2.1 4).mpr (by exact ⟨rfl, rfl⟩)
  · exact ((c5_outgoing_protocol
      ((⟨some (Sliceable.new [1, 8]), .messageReady, [], none⟩ :
        MessageManager).is_outgoing_ready.2)).2.2.2.1 4 ⟨2, true⟩ [1, 8] rfl).mpr rfl
  · exact (c5_outgoing_protocol _).2.2.2.2.2.1 rfl
  · exact (c5_outgoing_protocol _).2.2.2.2.2.2.2.1.mpr rfl
  · exact (c5_outgoing_protocol _).2.2.2.2.2.2.2.2.1 rfl

/-- C8: for a session in state `MsgAwait{max_time}` with an empty inbound
queue, a `process_kern_requests` tick at a time strictly greater than
`max_time` (and an empty mailbox) sends `SubkernelMsgRecvReply{Timeout,
count = 0}` to the kernel and sets the session state back to `Running`; and a
`SubkernelMsgRecvRequest{timeout}` received while `Running` sets the state to
`MsgAwait{now + timeout}` without acknowledging (nothing is sent). -/
theorem c8_msgawait_timeout (o : Oracles) (now rank mt : Nat) (mgr : Manager)
    (h1 : mgr.session.kernel_state = .msgAwait mt)
    (h2 : mgr.session.messages.in_queue = [])
    (h3 : mt < now) :
    mgr.process_kern_requests o now rank none =
      some ({ mgr with session := { mgr.session with kernel_state := .running } },
        [.sent (.subkernelMsgRecvReply .timeout 0)])
    ∧ (∀ timeout (mgr2 : Manager), mgr2.session.kernel_state = .running →
      mgr2.process_kern_requests o now rank (some (.subkernelMsgRecvRequest timeout)) =
        some ({ mgr2 with session :=
          { mgr2.session with kernel_state := .msgAwait (now + timeout) } }, [])) := by
  constructor
  · simp [Manager.process_kern_requests, Session.running, h1, h3,
      process_external_messages, Manager.run_kern_phase, process_kern_message]
  · intro timeout mgr2 h
    simp [Manager.process_kern_requests, Session.running, h,
      process_external_messages, Manager.run_kern_phase, process_kern_message,
      process_kern_hwreq]

/-- Concrete oracle bundle for satellite witnesses. -/
def w_oracles : Oracles :=
  { cacheGet := fun _ => 0
    cachePut := fun _ _ => true
    passMessage := fun _ => .ok ()
    synthException := fun _ => none }

/-- Concrete manager whose session awaits a message until time 10. -/
def w_mgr_await : Manager :=
  { current_id := 3
    session := { kernel_state := .msgAwait 10, log_buffer := [],
                 last_exception := none, messages := MessageManager.new }
    last_finished := none }

/-- Witness for C8: at time 11 (> 10) the tick replies Timeout/0 and returns
the session to `Running`. -/
theorem c8_witness :
    w_mgr_await.process_kern_requests w_oracles 11 0 none =
      some ({ w_mgr_await with
          session := { w_mgr_await.session with kernel_state := .running } },
        [.sent (.subkernelMsgRecvReply .timeout 0)]) := by
  exact (c8_msgawait_timeout w_oracles 11 0 10 w_mgr_await rfl rfl (by decide)).1

/-- C10 (implicit): processing a `kern::Log` or `kern::LogSlice` request
while `Running` only avoids a panic if the session log buffer is non-empty
when flushed: `flush_log_buffer` indexes `log_buffer[len - 1 ..]`, whose
index underflows (panics) when the buffer is empty — in particular a
`LogSlice` carrying an empty string with an empty buffer panics.  (Non-empty
is necessary, not sufficient: a buffer ending in a multi-byte character also
panics, on the character-boundary check of the same slicing.) -/
theorem c10_flush_empty_log_buffer_panics (o : Oracles) (now rank : Nat)
    (s : Session) (text : List Char) (h : s.kernel_state = .running) :
    (s.log_buffer ++ text = [] →
      process_kern_message o now rank (some (.logSlice text)) s = none)
    ∧ (s.log_buffer ++ text = [] →
      process_kern_message o now rank (some (.logMsg text)) s = none)
    ∧ flush_log_buffer [] = none
    ∧ (∀ buf : List Char, flush_log_buffer buf ≠ none → buf ≠ []) := by
  refine ⟨?_, ?_, rfl, ?_⟩
  · intro hx
    simp [process_kern_message, h, process_kern_hwreq, hx, flush_log_buffer]
  · intro hx
    simp [process_kern_message, h, process_kern_hwreq, hx, flush_log_buffer]
  · intro buf hne hempty
    subst hempty
    exact hne rfl

/-- Witness for C10: a `LogSlice` carrying the empty string on a running
session with an empty log buffer panics. -/
theorem c10_witness :
    process_kern_message w_oracles 0 0 (some (.logSlice []))
      { Session.new with kernel_state := .running } = none := by
  exact (c10_flush_empty_log_buffer_panics w_oracles 0 0
    { Session.new with kernel_state := .running } [] rfl).1 rfl

end SatmanTheorems
